import Mathlib

/-!
Verification development for the onlook repository excerpt:
  * packages/stripe/src/functions.ts   (billing client wrappers)
  * packages/db/src/schema/subscription/subscription.ts + UsageSection component
  * apps/web/client/src/server/api/routers/project/project.ts (project router)

The TypeScript code is shallowly embedded: the external billing provider and
the database are modelled as explicit inputs/oracles, fallible calls return
`Except`, and the sequence of outgoing provider calls is recorded as a trace.
-/

/-! ## Stripe price records and `isTierUpgrade` (functions.ts lines 10-12) -/

/-- A price record, exposing the monthly message quota used by tier
comparison (`Price` from packages/stripe types). -/
structure Price where
  monthlyMessageLimit : Int
deriving DecidableEq, Repr

/-- Embedding of `isTierUpgrade(currentPrice, newPrice)` from functions.ts:
`newPrice.monthlyMessageLimit > currentPrice.monthlyMessageLimit`. -/
def isTierUpgrade (currentPrice newPrice : Price) : Bool :=
  decide (newPrice.monthlyMessageLimit > currentPrice.monthlyMessageLimit)

/-! ## Subscription schedule workflow (`updateSubscriptionNextPeriod`,
functions.ts lines 112-166)

The provider (`stripe.subscriptionSchedules.create`) is modelled as an
oracle: the schedule it returns for the subscription is an input of the
embedded function.  The outgoing calls are recorded in a trace so that
"performs no update call" is a statement about the model. -/

/-- An item of a schedule phase: the price identifier (already a string in
the created schedule, so `.toString()` is the identity) and a quantity. -/
structure PhaseItem where
  price : String
  quantity : Nat
deriving DecidableEq, Repr

/-- A phase of a subscription schedule as returned by the provider. -/
structure Phase where
  items : List PhaseItem
  start_date : Int
  end_date : Int
deriving DecidableEq, Repr

/-- A subscription schedule as returned by `subscriptionSchedules.create`. -/
structure Schedule where
  id : String
  phases : List Phase
deriving DecidableEq, Repr

/-- A phase of the update payload sent to `subscriptionSchedules.update`:
items plus optional `start_date`, `end_date` and `iterations` fields
(absent fields are omitted in the TypeScript object literal). -/
structure UpdatePhase where
  items : List PhaseItem
  start_date : Option Int := none
  end_date : Option Int := none
  iterations : Option Nat := none
deriving DecidableEq, Repr

/-- The schedule object returned by `subscriptionSchedules.update`: same id,
phase list replaced by the update payload. -/
structure UpdatedSchedule where
  id : String
  phases : List UpdatePhase
deriving DecidableEq, Repr

/-- An outgoing call to the billing provider made by the workflow. -/
inductive StripeCall where
  | createSchedule (fromSubscription : String)
  | updateSchedule (scheduleId : String) (phases : List UpdatePhase)
deriving DecidableEq, Repr

/-- Whether a recorded provider call is a schedule-update call. -/
def StripeCall.isUpdate : StripeCall → Bool
  | .createSchedule _ => false
  | .updateSchedule _ _ => true

/-- Embedding of `updateSubscriptionNextPeriod` from functions.ts.  `schedule` is the
schedule the provider returns from `subscriptionSchedules.create({
from_subscription: subscriptionId })`.  The result is the thrown error
message or the updated schedule, paired with the trace of provider calls. -/
def updateSubscriptionNextPeriod (subscriptionId priceId : String)
    (schedule : Schedule) :
    Except String UpdatedSchedule × List StripeCall :=
  let createCall := StripeCall.createSchedule subscriptionId
  match schedule.phases[0]? with
  | none => (Except.error "No current phase found", [createCall])
  | some currentPhase =>
    match currentPhase.items[0]? with
    | none => (Except.error "No current item found", [createCall])
    | some currentItem =>
      let currentPrice := currentItem.price
      if currentPrice = "" then
        (Except.error "No current price found", [createCall])
      else
        let newPhases : List UpdatePhase :=
          [ { items := [{ price := currentPrice, quantity := currentItem.quantity }],
              start_date := some currentPhase.start_date,
              end_date := some currentPhase.end_date },
            { items := [{ price := priceId, quantity := 1 }],
              iterations := some 1 } ]
        (Except.ok { id := schedule.id, phases := newPhases },
         [createCall, StripeCall.updateSchedule schedule.id newPhases])

/-! ## Usage display (UsageSection component, bundled with subscription.ts)

`usagePercent` models line 92:
`usage.limitCount > 0 ? usage.usageCount / usage.limitCount * 100 : 0`.
The two counts are usage-tracking cardinalities, hence naturals; the result
is a rational so that the division is exact. -/

/-- The usage percentage displayed by the progress bar. -/
def usagePercent (usageCount limitCount : Nat) : ℚ :=
  if limitCount > 0 then (usageCount : ℚ) / (limitCount : ℚ) * 100 else 0

/-- The scheduled-subscription-action enum from the stripe package. -/
inductive ScheduledSubscriptionAction where
  | PRICE_CHANGE
  | CANCELLATION
deriving DecidableEq, Repr

/-- Model of the external, locale-dependent date renderer
`toLocaleDateString('en-US', \x7b month: 'long', day: 'numeric', year: 'numeric' \x7d)`.  Dates
are modelled as integer timestamps and the renderer as their decimal
rendering; the claims only use that the formatted date appears in the
message. -/
def formatLongDate (d : Int) : String :=
  toString d

/-- The `scheduledChange` projection of the subscription query result: a
scheduled action, the target price when one was joined, and the effective
timestamp (non-null whenever an action is scheduled, per the schema
invariant; the component reads it without a null check). -/
structure ScheduledChange where
  scheduledAction : ScheduledSubscriptionAction
  price : Option Price
  scheduledChangeAt : Int
deriving DecidableEq, Repr

/-- The slice of the subscription query result the message code reads:
`subscription?.scheduledChange` with both optional chainings. -/
structure SubscriptionView where
  scheduledChange : Option ScheduledChange
deriving DecidableEq, Repr

/-- Embedding of `getSubscriptionChangeMessage` (UsageSection lines 99-114): builds the
message string; a non-empty message is rendered (`some`), an empty one
renders nothing (`none`). -/
def getSubscriptionChangeMessage (subscription : Option SubscriptionView) :
    Option String :=
  let message :=
    match subscription with
    | none => ""
    | some s =>
      match s.scheduledChange with
      | none => ""
      | some sc =>
        match sc.scheduledAction, sc.price with
        | .PRICE_CHANGE, some p =>
          "Your " ++ (toString p.monthlyMessageLimit ++
            (" messages a month plan starts on " ++
              formatLongDate sc.scheduledChangeAt))
        | .PRICE_CHANGE, none => ""
        | .CANCELLATION, _ =>
          "Your subscription will end on " ++
            formatLongDate sc.scheduledChangeAt
  if message = "" then none else some message

/-! ## Project router (project.ts)

The database and the language model are external services, modelled as
explicit inputs.  Row-to-DTO mappers (`toProject`, `toCanvas`, `toFrame`,
`toConversation`) and the default-record builders (`createDefaultCanvas`,
`createDefaultUserCanvas`, `createDefaultFrame`,
`createDefaultConversation`) live in @onlook/db, outside this excerpt. -/

/-- A row of the `projects` table (the fields the router reads). -/
structure ProjectRow where
  id : Nat
  sandboxUrl : String
  updatedAt : Int
deriving DecidableEq, Repr

/-- Project metadata as exposed by the `toProject` DTO. -/
structure ProjectMeta where
  updatedAt : Int
deriving DecidableEq, Repr

/-- The project DTO returned to clients. -/
structure Project where
  id : Nat
  metadata : ProjectMeta
deriving DecidableEq, Repr

/-- Modelled from the spec: `toProject` (from @onlook/db, not in the
excerpt) maps a project row to the client DTO, carrying the row's identity
and its `updatedAt` into `metadata.updatedAt`. -/
def toProject (row : ProjectRow) : Project :=
  { id := row.id, metadata := { updatedAt := row.updatedAt } }

/-- A row of the `user_projects` junction table joined with its project, as
returned by `db.query.userProjects.findMany({ with: { project: true } })`. -/
structure UserProjectJoin where
  userId : Nat
  project : ProjectRow
deriving DecidableEq, Repr

/-- Descending order on projects by `metadata.updatedAt`: the comparator
`(a, b) => new Date(b.metadata.updatedAt).getTime() - new Date(a.metadata.updatedAt).getTime()`
sorts `a` before `b` exactly when `b.metadata.updatedAt ≤ a.metadata.updatedAt`. -/
def projectDescOrder (a b : Project) : Prop :=
  b.metadata.updatedAt ≤ a.metadata.updatedAt

instance : DecidableRel projectDescOrder :=
  fun _ _ => Int.decLe _ _

instance : IsTotal Project projectDescOrder :=
  ⟨fun a b => le_total b.metadata.updatedAt a.metadata.updatedAt⟩

instance : IsTrans Project projectDescOrder :=
  ⟨fun _ _ _ hab hbc => le_trans hbc hab⟩

/-- The `list` procedure (project.ts lines 31-40): fetch the caller's
`userProjects` rows, map the joined project through `toProject`, and sort by
descending `updatedAt`. -/
def listProjects (rows : List UserProjectJoin) (callerId : Nat) : List Project :=
  (((rows.filter (fun up => up.userId = callerId)).map
      (fun up => toProject up.project)).insertionSort projectDescOrder)

/-! ### `getFullProject` (project.ts lines 53-85) -/

/-- A row of the `canvases` table. -/
structure CanvasRow where
  id : Nat
  projectId : Nat
deriving DecidableEq, Repr

/-- A row of the `user_canvases` table. -/
structure UserCanvasRow where
  userId : Nat
  canvasId : Nat
deriving DecidableEq, Repr

/-- A row of the `frames` table. -/
structure FrameRow where
  id : Nat
  canvasId : Nat
  url : String
deriving DecidableEq, Repr

/-- A row of the `conversations` table. -/
structure ConversationRow where
  id : Nat
  projectId : Nat
deriving DecidableEq, Repr

/-- Modelled from the spec: `createDefaultCanvas(projectId)` (from
@onlook/db, not in the excerpt) builds a default canvas row for the project
with a freshly generated id, here supplied explicitly. -/
def createDefaultCanvas (freshId : Nat) (projectId : Nat) : CanvasRow :=
  { id := freshId, projectId := projectId }

/-- Modelled from the spec: `createDefaultUserCanvas(userId, canvasId)`
(from @onlook/db, not in the excerpt) builds a default user-canvas row
linking the user to the canvas. -/
def createDefaultUserCanvas (userId canvasId : Nat) : UserCanvasRow :=
  { userId := userId, canvasId := canvasId }

/-- The canvas relation loaded with the project: the canvas row together
with its `frames` and the caller-filtered `userCanvases`. -/
structure CanvasWithRelations where
  canvas : CanvasRow
  frames : List FrameRow
  userCanvases : List UserCanvasRow
deriving DecidableEq, Repr

/-- The project row with the relations `getFullProject` loads (`canvas` is
nullable, `conversations` already ordered by the query). -/
structure ProjectWithRelations where
  project : ProjectRow
  canvas : Option CanvasWithRelations
  conversations : List ConversationRow
deriving DecidableEq, Repr

/-- Modelled from the spec: `toCanvas` (from @onlook/db, not in the
excerpt) maps a user-canvas row to its client DTO; identity on the modelled
fields. -/
def toCanvas (row : UserCanvasRow) : UserCanvasRow :=
  row

/-- Modelled from the spec: `toFrame` (from @onlook/db, not in the excerpt)
maps a frame row to its client DTO; identity on the modelled fields. -/
def toFrame (row : FrameRow) : FrameRow :=
  row

/-- Modelled from the spec: `toConversation` (from @onlook/db, not in the
excerpt) maps a conversation row to its client DTO; identity on the
modelled fields. -/
def toConversation (row : ConversationRow) : ConversationRow :=
  row

/-- The value `getFullProject` returns for a found project. -/
structure FullProject where
  project : Project
  userCanvas : UserCanvasRow
  frames : List FrameRow
  conversations : List ConversationRow
deriving DecidableEq, Repr

/-- Embedding of `getFullProject` (project.ts lines 53-85).  `found` is the (nullable)
query result; `freshCanvasId` stands for the id `createDefaultCanvas`
would generate.  `null` is returned only for a missing project; otherwise
the stored canvas falls back to a default canvas, the caller's user-canvas
row falls back to a default user-canvas on that canvas, and missing
canvas relations yield an empty frame list. -/
def getFullProject (callerId : Nat) (found : Option ProjectWithRelations)
    (freshCanvasId : Nat) : Option FullProject :=
  match found with
  | none => none
  | some pr =>
    let canvas : CanvasRow :=
      match pr.canvas with
      | some c => c.canvas
      | none => createDefaultCanvas freshCanvasId pr.project.id
    let userCanvas : UserCanvasRow :=
      match pr.canvas with
      | some c =>
        match c.userCanvases[0]? with
        | some uc => uc
        | none => createDefaultUserCanvas callerId canvas.id
      | none => createDefaultUserCanvas callerId canvas.id
    some
      { project := toProject pr.project,
        userCanvas := toCanvas userCanvas,
        frames :=
          match pr.canvas with
          | some c => c.frames.map toFrame
          | none => [],
        conversations := pr.conversations.map toConversation }

/-! ### `create` (project.ts lines 86-144)

The transaction body is embedded as a pure function over an explicit
database state; each insert consults a failure oracle (`fails`) standing
for the storage layer.  `ctx.db.transaction` gives all-or-nothing
semantics: the committed state is the new state on success and the original
state when the body throws. -/

/-- The project-role enum (`ProjectRole.OWNER` is the only value used). -/
inductive ProjectRole where
  | OWNER
deriving DecidableEq, Repr

/-- The creation-request status enum (`PENDING` is the only value used). -/
inductive ProjectCreateRequestStatus where
  | PENDING
deriving DecidableEq, Repr

/-- A row of the `user_projects` junction table. -/
structure UserProjectRow where
  userId : Nat
  projectId : Nat
  role : ProjectRole
deriving DecidableEq, Repr

/-- A row of the `project_create_requests` table. -/
structure CreateRequestRow where
  projectId : Nat
  status : ProjectCreateRequestStatus
  creationData : String
deriving DecidableEq, Repr

/-- The database state touched by the project-creation transaction. -/
structure Db where
  projects : List ProjectRow
  userProjects : List UserProjectRow
  canvases : List CanvasRow
  userCanvases : List UserCanvasRow
  frames : List FrameRow
  conversations : List ConversationRow
  projectCreateRequests : List CreateRequestRow
deriving DecidableEq, Repr

/-- Modelled from the spec: `createDefaultFrame(canvasId, sandboxUrl)`
(from @onlook/db, not in the excerpt) builds a default frame row on the
canvas, parameterized by the sandbox URL, with a freshly generated id. -/
def createDefaultFrame (freshId : Nat) (canvasId : Nat) (url : String) : FrameRow :=
  { id := freshId, canvasId := canvasId, url := url }

/-- Modelled from the spec: `createDefaultConversation(projectId)` (from
@onlook/db, not in the excerpt) builds a default conversation row for the
project with a freshly generated id. -/
def createDefaultConversation (freshId : Nat) (projectId : Nat) : ConversationRow :=
  { id := freshId, projectId := projectId }

/-- The six insert statements of the creation transaction, in program
order; the failure oracle is indexed by them. -/
inductive InsertStep where
  | projectStep
  | userProjectStep
  | canvasStep
  | userCanvasStep
  | frameStep
  | conversationStep
  | createRequestStep
deriving DecidableEq, Repr

/-- The body of the `create` transaction (project.ts lines 97-143).
`freshCanvasId`, `freshFrameId`, `freshConversationId` stand for the ids
the default-record builders generate; `fails s = true` means the insert of
step `s` fails (for the project insert, `.returning()` yields no row and
the explicit error is thrown; for the others the storage error
propagates). -/
def createProjectTx (db : Db) (inputProject : ProjectRow) (inputUserId : Nat)
    (creationData : Option String)
    (freshCanvasId freshFrameId freshConversationId : Nat)
    (fails : InsertStep → Bool) : Except String Db :=
  if fails .projectStep then
    Except.error "Failed to create project in database"
  else
    let newProject := inputProject
    let db1 := { db with projects := db.projects ++ [newProject] }
    if fails .userProjectStep then Except.error "userProjects insert failed"
    else
      let newUserProject : UserProjectRow :=
        { userId := inputUserId, projectId := newProject.id, role := ProjectRole.OWNER }
      let db2 := { db1 with userProjects := db1.userProjects ++ [newUserProject] }
      let newCanvas := createDefaultCanvas freshCanvasId newProject.id
      if fails .canvasStep then Except.error "canvases insert failed"
      else
        let db3 := { db2 with canvases := db2.canvases ++ [newCanvas] }
        let newUserCanvas := createDefaultUserCanvas inputUserId newCanvas.id
        if fails .userCanvasStep then Except.error "userCanvases insert failed"
        else
          let db4 := { db3 with userCanvases := db3.userCanvases ++ [newUserCanvas] }
          let newFrame := createDefaultFrame freshFrameId newCanvas.id inputProject.sandboxUrl
          if fails .frameStep then Except.error "frames insert failed"
          else
            let db5 := { db4 with frames := db4.frames ++ [newFrame] }
            let newConversation := createDefaultConversation freshConversationId newProject.id
            if fails .conversationStep then Except.error "conversations insert failed"
            else
              let db6 := { db5 with conversations := db5.conversations ++ [newConversation] }
              match creationData with
              | none => Except.ok db6
              | some d =>
                if fails .createRequestStep then
                  Except.error "projectCreateRequests insert failed"
                else
                  Except.ok { db6 with projectCreateRequests := db6.projectCreateRequests ++
                    [{ projectId := newProject.id,
                       status := ProjectCreateRequestStatus.PENDING,
                       creationData := d }] }

/-- The database state visible after the `create` call: the transaction
commits the new state on success and rolls back to the original state when
the body throws. -/
def createProjectVisible (db : Db) (inputProject : ProjectRow) (inputUserId : Nat)
    (creationData : Option String)
    (freshCanvasId freshFrameId freshConversationId : Nat)
    (fails : InsertStep → Bool) : Db :=
  match createProjectTx db inputProject inputUserId creationData
      freshCanvasId freshFrameId freshConversationId fails with
  | Except.ok db2 => db2
  | Except.error _ => db

/-! ### `generateName` (project.ts lines 145-175) -/

/-- The constant `MAX_NAME_LENGTH` from the `generateName` procedure. -/
def MAX_NAME_LENGTH : Nat := 50

/-- The prompt string `generateName` sends to the language model, built
from the user prompt (project.ts line 160). -/
def buildNamePrompt (prompt : String) : String :=
  "Generate a concise and meaningful project name (2-4 words maximum) that reflects the main purpose or theme of the project based on user\x27s creation prompt. Generate only the project name, nothing else. Keep it short and descriptive. User\x27s creation prompt: <prompt>" ++
    prompt ++ "</prompt>"

/-- Model of `result.text.trim()`, the JavaScript trim builtin, removing leading and
trailing whitespace.  Defined by structural recursion on the character list
so that it evaluates on concrete strings. -/
def jsTrim (s : String) : String :=
  String.mk (((s.data.dropWhile Char.isWhitespace).reverse.dropWhile
    Char.isWhitespace).reverse)

/-- Embedding of `generateName` (project.ts lines 145-175).  `llm` models the language
model: for a prompt it either throws (`Except.error`, covering both
`initModel` and `generateText` failures, caught by the surrounding
`try`/`catch`) or produces the generated text.  A trimmed result that is
empty or longer than `MAX_NAME_LENGTH` characters degrades to the fixed
fallback name. -/
def generateName (llm : String → Except Unit String) (prompt : String) : String :=
  match llm (buildNamePrompt prompt) with
  | Except.error _ => "New Project"
  | Except.ok text =>
    let generatedName := jsTrim text
    if generatedName ≠ "" ∧ generatedName.length > 0 ∧
        generatedName.length ≤ MAX_NAME_LENGTH then
      generatedName
    else
      "New Project"

/-! ## Theorems -/

/-- A string whose left operand has a non-empty character list is not the
empty string. -/
theorem append_ne_empty_left (a b : String) (ha : a.data ≠ []) : a ++ b ≠ "" :=
  fun h => ha (List.append_eq_nil.mp (congrArg String.data h)).1

/-- C3: `isTierUpgrade(a, b)` returns true iff
`b.monthlyMessageLimit > a.monthlyMessageLimit`, and returns false when the
two limits are equal. -/
theorem isTierUpgrade_iff_gt (a b : Price) :
    (isTierUpgrade a b = true ↔
      b.monthlyMessageLimit > a.monthlyMessageLimit) ∧
    (a.monthlyMessageLimit = b.monthlyMessageLimit →
      isTierUpgrade a b = false) := by
  refine ⟨by simp [isTierUpgrade], fun h => ?_⟩
  simp [isTierUpgrade, h]

/-- Witness for `isTierUpgrade_iff_gt` at concrete prices with equal
limits. -/
theorem isTierUpgrade_iff_gt_witness :
    (Price.mk 5).monthlyMessageLimit = (Price.mk 5).monthlyMessageLimit ∧
    isTierUpgrade (Price.mk 5) (Price.mk 5) = false :=
  ⟨rfl, (isTierUpgrade_iff_gt (Price.mk 5) (Price.mk 5)).2 rfl⟩

/-- C8: `isTierUpgrade` is irreflexive and antisymmetric, and both
directions are false on equal limits. -/
theorem isTierUpgrade_irrefl_antisymm :
    (∀ a : Price, isTierUpgrade a a = false) ∧
    (∀ a b : Price,
      ¬(isTierUpgrade a b = true ∧ isTierUpgrade b a = true)) ∧
    (∀ a b : Price, a.monthlyMessageLimit = b.monthlyMessageLimit →
      isTierUpgrade a b = false ∧ isTierUpgrade b a = false) := by
  refine ⟨fun a => by simp [isTierUpgrade], fun a b h => ?_, fun a b h => ?_⟩
  · rcases h with ⟨h1, h2⟩
    simp [isTierUpgrade] at h1 h2
    omega
  · constructor <;> simp [isTierUpgrade, h]

/-- Witness for `isTierUpgrade_irrefl_antisymm`: the antisymmetry conjunct
at concrete prices, with its negated-conjunction hypothesis exhibited. -/
theorem isTierUpgrade_irrefl_antisymm_witness :
    (Price.mk 3).monthlyMessageLimit = (Price.mk 3).monthlyMessageLimit ∧
    isTierUpgrade (Price.mk 3) (Price.mk 3) = false ∧
    isTierUpgrade (Price.mk 3) (Price.mk 3) = false :=
  ⟨rfl, (isTierUpgrade_irrefl_antisymm.2.2 (Price.mk 3) (Price.mk 3) rfl).1,
    (isTierUpgrade_irrefl_antisymm.2.2 (Price.mk 3) (Price.mk 3) rfl).2⟩

/-- C6: the displayed usage percentage is 0 whenever the limit is 0, and
otherwise equals `usageCount / limitCount * 100`; at limit 100 and usage 25
it is exactly 25. -/
theorem usagePercent_spec :
    (∀ usageCount : Nat, usagePercent usageCount 0 = 0) ∧
    (∀ usageCount limitCount : Nat, limitCount ≠ 0 →
      usagePercent usageCount limitCount =
        (usageCount : ℚ) / (limitCount : ℚ) * 100) ∧
    usagePercent 25 100 = 25 := by
  refine ⟨fun u => by simp [usagePercent], fun u l hl => ?_, by norm_num [usagePercent]⟩
  simp [usagePercent, Nat.pos_of_ne_zero hl]

/-- Witness for `usagePercent_spec`: the non-zero-limit conjunct at usage
25 and limit 100. -/
theorem usagePercent_spec_witness :
    (100 : Nat) ≠ 0 ∧ usagePercent 25 100 = (25 : ℚ) / (100 : ℚ) * 100 :=
  ⟨by decide, usagePercent_spec.2.1 25 100 (by decide)⟩

/-- C7: with a scheduled price change and a target price, the rendered
message carries the target limit and the formatted effective date; with a
scheduled cancellation it states the formatted end date; with no scheduled
action nothing is rendered. -/
theorem getSubscriptionChangeMessage_spec (s : SubscriptionView)
    (sc : ScheduledChange) (p : Price) :
    (s.scheduledChange = some sc →
      sc.scheduledAction = ScheduledSubscriptionAction.PRICE_CHANGE →
      sc.price = some p →
      getSubscriptionChangeMessage (some s) =
        some ("Your " ++ (toString p.monthlyMessageLimit ++
          (" messages a month plan starts on " ++
            formatLongDate sc.scheduledChangeAt)))) ∧
    (s.scheduledChange = some sc →
      sc.scheduledAction = ScheduledSubscriptionAction.CANCELLATION →
      getSubscriptionChangeMessage (some s) =
        some ("Your subscription will end on " ++
          formatLongDate sc.scheduledChangeAt)) ∧
    (s.scheduledChange = none →
      getSubscriptionChangeMessage (some s) = none) ∧
    getSubscriptionChangeMessage none = none := by
  refine ⟨fun h1 h2 h3 => ?_, fun h1 h2 => ?_, fun h1 => ?_, rfl⟩
  · simp only [getSubscriptionChangeMessage, h1, h2, h3]
    rw [if_neg (append_ne_empty_left _ _ (by decide))]
  · simp only [getSubscriptionChangeMessage, h1, h2]
    rw [if_neg (append_ne_empty_left _ _ (by decide))]
  · simp [getSubscriptionChangeMessage, h1]

/-- Witness for `getSubscriptionChangeMessage_spec` at a concrete
subscription for each of the three cases. -/
theorem getSubscriptionChangeMessage_spec_witness :
    getSubscriptionChangeMessage
      (some { scheduledChange := some { scheduledAction := .PRICE_CHANGE,
                                        price := some (Price.mk 100),
                                        scheduledChangeAt := 3 } })
      = some ("Your " ++ (toString (100 : Int) ++
          (" messages a month plan starts on " ++ formatLongDate 3))) ∧
    getSubscriptionChangeMessage
      (some { scheduledChange := some { scheduledAction := .CANCELLATION,
                                        price := none,
                                        scheduledChangeAt := 3 } })
      = some ("Your subscription will end on " ++ formatLongDate 3) ∧
    getSubscriptionChangeMessage (some { scheduledChange := none }) = none :=
  ⟨(getSubscriptionChangeMessage_spec
      { scheduledChange := some { scheduledAction := .PRICE_CHANGE,
                                  price := some (Price.mk 100),
                                  scheduledChangeAt := 3 } }
      { scheduledAction := .PRICE_CHANGE, price := some (Price.mk 100),
        scheduledChangeAt := 3 }
      (Price.mk 100)).1 rfl rfl rfl,
   (getSubscriptionChangeMessage_spec
      { scheduledChange := some { scheduledAction := .CANCELLATION,
                                  price := none, scheduledChangeAt := 3 } }
      { scheduledAction := .CANCELLATION, price := none,
        scheduledChangeAt := 3 }
      (Price.mk 100)).2.1 rfl rfl,
   (getSubscriptionChangeMessage_spec
      { scheduledChange := none }
      { scheduledAction := .CANCELLATION, price := none,
        scheduledChangeAt := 3 }
      (Price.mk 100)).2.2.1 rfl⟩

/-- C1: when the freshly created schedule has a phase 0 with an item 0
whose price identifier is non-empty, `updateSubscriptionNextPeriod`
replaces the phase list with exactly two phases — the first reproducing the
current price, quantity, start date and end date, the second holding only
the target price at quantity 1 with one iteration — and returns the
updated schedule. -/
theorem updateSubscriptionNextPeriod_two_phases
    (subscriptionId priceId : String) (schedule : Schedule)
    (currentPhase : Phase) (currentItem : PhaseItem)
    (hp : schedule.phases[0]? = some currentPhase)
    (hi : currentPhase.items[0]? = some currentItem)
    (hne : currentItem.price ≠ "") :
    (updateSubscriptionNextPeriod subscriptionId priceId schedule).1 =
      Except.ok
        { id := schedule.id,
          phases := [
            { items := [{ price := currentItem.price,
                          quantity := currentItem.quantity }],
              start_date := some currentPhase.start_date,
              end_date := some currentPhase.end_date },
            { items := [{ price := priceId, quantity := 1 }],
              iterations := some 1 } ] } := by
  simp [updateSubscriptionNextPeriod, hp, hi, hne]

/-- Witness for `updateSubscriptionNextPeriod_two_phases` at a concrete
single-phase schedule. -/
theorem updateSubscriptionNextPeriod_two_phases_witness :
    ((Schedule.mk "sch" [{ items := [{ price := "p1", quantity := 3 }],
                           start_date := 10, end_date := 20 }]).phases[0]? =
      some { items := [{ price := "p1", quantity := 3 }],
             start_date := 10, end_date := 20 }) ∧
    (updateSubscriptionNextPeriod "sub" "p2"
        (Schedule.mk "sch" [{ items := [{ price := "p1", quantity := 3 }],
                              start_date := 10, end_date := 20 }])).1 =
      Except.ok
        { id := "sch",
          phases := [
            { items := [{ price := "p1", quantity := 3 }],
              start_date := some 10, end_date := some 20 },
            { items := [{ price := "p2", quantity := 1 }],
              iterations := some 1 } ] } :=
  ⟨rfl,
    updateSubscriptionNextPeriod_two_phases "sub" "p2"
      (Schedule.mk "sch" [{ items := [{ price := "p1", quantity := 3 }],
                            start_date := 10, end_date := 20 }])
      { items := [{ price := "p1", quantity := 3 }],
        start_date := 10, end_date := 20 }
      { price := "p1", quantity := 3 }
      rfl rfl (by decide)⟩

/-- C2: each of the three absence checks raises its own distinct error —
no phase 0, no item 0, empty price identifier — and in each case the call
trace holds no schedule-update call; a zero-phase schedule hits the
"no current phase" error. -/
theorem updateSubscriptionNextPeriod_errors
    (subscriptionId priceId : String) (schedule : Schedule) :
    (("No current phase found" : String) ≠ "No current item found" ∧
     ("No current phase found" : String) ≠ "No current price found" ∧
     ("No current item found" : String) ≠ "No current price found") ∧
    (List.filter StripeCall.isUpdate
      [StripeCall.createSchedule subscriptionId] = []) ∧
    (schedule.phases = [] →
      updateSubscriptionNextPeriod subscriptionId priceId schedule =
        (Except.error "No current phase found",
         [StripeCall.createSchedule subscriptionId])) ∧
    (∀ currentPhase, schedule.phases[0]? = some currentPhase →
      currentPhase.items = [] →
      updateSubscriptionNextPeriod subscriptionId priceId schedule =
        (Except.error "No current item found",
         [StripeCall.createSchedule subscriptionId])) ∧
    (∀ currentPhase currentItem, schedule.phases[0]? = some currentPhase →
      currentPhase.items[0]? = some currentItem → currentItem.price = "" →
      updateSubscriptionNextPeriod subscriptionId priceId schedule =
        (Except.error "No current price found",
         [StripeCall.createSchedule subscriptionId])) := by
  refine ⟨⟨by decide, by decide, by decide⟩, by simp [StripeCall.isUpdate],
    fun h => ?_, fun cp hp hi => ?_, fun cp ci hp hi hpr => ?_⟩
  · simp [updateSubscriptionNextPeriod, h]
  · simp [updateSubscriptionNextPeriod, hp, hi]
  · simp [updateSubscriptionNextPeriod, hp, hi, hpr]

/-- Witness for `updateSubscriptionNextPeriod_errors` at concrete
schedules hitting each of the three error checks, including the
zero-phase schedule. -/
theorem updateSubscriptionNextPeriod_errors_witness :
    (updateSubscriptionNextPeriod "sub" "p2" (Schedule.mk "s" []) =
      (Except.error "No current phase found",
       [StripeCall.createSchedule "sub"])) ∧
    (updateSubscriptionNextPeriod "sub" "p2"
        (Schedule.mk "s" [{ items := [], start_date := 0, end_date := 1 }]) =
      (Except.error "No current item found",
       [StripeCall.createSchedule "sub"])) ∧
    (updateSubscriptionNextPeriod "sub" "p2"
        (Schedule.mk "s" [{ items := [{ price := "", quantity := 1 }],
                            start_date := 0, end_date := 1 }]) =
      (Except.error "No current price found",
       [StripeCall.createSchedule "sub"])) :=
  ⟨(updateSubscriptionNextPeriod_errors "sub" "p2"
      (Schedule.mk "s" [])).2.2.1 rfl,
   (updateSubscriptionNextPeriod_errors "sub" "p2"
      (Schedule.mk "s" [{ items := [], start_date := 0, end_date := 1 }])).2.2.2.1
     { items := [], start_date := 0, end_date := 1 } rfl rfl,
   (updateSubscriptionNextPeriod_errors "sub" "p2"
      (Schedule.mk "s" [{ items := [{ price := "", quantity := 1 }],
                          start_date := 0, end_date := 1 }])).2.2.2.2
     { items := [{ price := "", quantity := 1 }], start_date := 0, end_date := 1 }
     { price := "", quantity := 1 } rfl rfl rfl⟩

/-- A non-empty string has positive length. -/
theorem string_length_pos_of_ne_empty (s : String) (h : s ≠ "") :
    0 < s.length := by
  cases s with
  | mk data =>
    cases data with
    | nil => exact absurd rfl h
    | cons c cs => simp

/-- C5: `generateName` never propagates an error — a throwing model call,
an empty trimmed result, or a trimmed result longer than 50 characters all
yield the fixed fallback name, and otherwise the trimmed text (non-empty,
at most 50 characters) is returned. -/
theorem generateName_total (llm : String → Except Unit String)
    (prompt : String) :
    (∀ e, llm (buildNamePrompt prompt) = Except.error e →
      generateName llm prompt = "New Project") ∧
    (∀ t, llm (buildNamePrompt prompt) = Except.ok t →
      (jsTrim t = "" → generateName llm prompt = "New Project") ∧
      (50 < (jsTrim t).length → generateName llm prompt = "New Project") ∧
      (jsTrim t ≠ "" → (jsTrim t).length ≤ 50 →
        generateName llm prompt = jsTrim t ∧
        generateName llm prompt ≠ "" ∧
        (generateName llm prompt).length ≤ 50)) := by
  have hg : ∀ t, llm (buildNamePrompt prompt) = Except.ok t →
      generateName llm prompt =
        (if jsTrim t ≠ "" ∧ (jsTrim t).length > 0 ∧
            (jsTrim t).length ≤ MAX_NAME_LENGTH
         then jsTrim t else "New Project") := by
    intro t ht
    simp only [generateName, ht]
  refine ⟨fun e he => by simp [generateName, he],
    fun t ht => ⟨fun h0 => ?_, fun h50 => ?_, fun hne hle => ?_⟩⟩
  · rw [hg t ht, if_neg]
    intro hc
    exact hc.1 h0
  · rw [hg t ht, if_neg]
    intro hc
    have : (jsTrim t).length ≤ 50 := hc.2.2
    omega
  · have hcond : jsTrim t ≠ "" ∧ (jsTrim t).length > 0 ∧
        (jsTrim t).length ≤ MAX_NAME_LENGTH :=
      ⟨hne, string_length_pos_of_ne_empty _ hne, hle⟩
    rw [hg t ht, if_pos hcond]
    exact ⟨rfl, hne, hle⟩

/-- Witness for `generateName_total`: a concrete model result with
surrounding whitespace. -/
theorem generateName_total_witness :
    jsTrim "  My App  " ≠ "" ∧ (jsTrim "  My App  ").length ≤ 50 ∧
    generateName (fun _ => Except.ok "  My App  ") "p" = jsTrim "  My App  " :=
  ⟨by decide, by decide,
    (((generateName_total (fun _ => Except.ok "  My App  ") "p").2
      "  My App  " rfl).2.2 (by decide) (by decide)).1⟩

/-- C9: the `list` procedure returns exactly the calling user's projects
(as a permutation of the mapped query rows), sorted so that each later
project's `updatedAt` is at most the earlier one's (most recently updated
first). -/
theorem listProjects_sorted_desc (rows : List UserProjectJoin)
    (callerId : Nat) :
    List.Pairwise
      (fun a b : Project => b.metadata.updatedAt ≤ a.metadata.updatedAt)
      (listProjects rows callerId) ∧
    (listProjects rows callerId).Perm
      ((rows.filter (fun up => up.userId = callerId)).map
        (fun up => toProject up.project)) :=
  ⟨List.sorted_insertionSort projectDescOrder _,
   List.perm_insertionSort projectDescOrder _⟩

/-- C10: `getFullProject` yields `none` only for a missing project; for a
found project it always produces a full record whose conversations are the
mapped rows, whose frames fall back to the empty list when the canvas
relation is absent, and whose user-canvas falls back to a default
user-canvas — on the default canvas when the canvas is absent, on the
stored canvas when only the user's user-canvas row is absent. -/
theorem getFullProject_defaults (callerId freshCanvasId : Nat)
    (pr : ProjectWithRelations) :
    getFullProject callerId none freshCanvasId = none ∧
    ∃ fp, getFullProject callerId (some pr) freshCanvasId = some fp ∧
      fp.project = toProject pr.project ∧
      fp.conversations = pr.conversations.map toConversation ∧
      (pr.canvas = none →
        fp.frames = [] ∧
        fp.userCanvas = toCanvas (createDefaultUserCanvas callerId
          (createDefaultCanvas freshCanvasId pr.project.id).id)) ∧
      (∀ c, pr.canvas = some c →
        fp.frames = c.frames.map toFrame ∧
        (c.userCanvases = [] →
          fp.userCanvas = toCanvas (createDefaultUserCanvas callerId
            c.canvas.id)) ∧
        (∀ uc rest, c.userCanvases = uc :: rest →
          fp.userCanvas = toCanvas uc)) := by
  refine ⟨rfl, ?_⟩
  rcases hc : pr.canvas with _ | c
  · exact ⟨{ project := toProject pr.project,
             userCanvas := toCanvas (createDefaultUserCanvas callerId
               (createDefaultCanvas freshCanvasId pr.project.id).id),
             frames := [],
             conversations := pr.conversations.map toConversation },
      by simp [getFullProject, hc], rfl, rfl, fun _ => ⟨rfl, rfl⟩,
      fun c hcc => nomatch hcc⟩
  · rcases hu : c.userCanvases with _ | ⟨uc, rest⟩
    · refine ⟨{ project := toProject pr.project,
                userCanvas := toCanvas (createDefaultUserCanvas callerId
                  c.canvas.id),
                frames := c.frames.map toFrame,
                conversations := pr.conversations.map toConversation },
        by simp [getFullProject, hc, hu], rfl, rfl,
        fun h => Option.noConfusion h, fun c' hcc => ?_⟩
      injection hcc with h'
      subst h'
      exact ⟨rfl, fun _ => rfl,
        fun uc' rest' h => by rw [hu] at h; cases h⟩
    · refine ⟨{ project := toProject pr.project,
                userCanvas := toCanvas uc,
                frames := c.frames.map toFrame,
                conversations := pr.conversations.map toConversation },
        by simp [getFullProject, hc, hu], rfl, rfl,
        fun h => Option.noConfusion h, fun c' hcc => ?_⟩
      injection hcc with h'
      subst h'
      refine ⟨rfl, fun h => ?_, fun uc' rest' h => ?_⟩
      · rw [hu] at h
        cases h
      · rw [hu] at h
        injection h with h1 h2

/-- Witness for `getFullProject_defaults`: a concrete project whose canvas
relation is absent. -/
theorem getFullProject_defaults_witness :
    (ProjectWithRelations.mk { id := 1, sandboxUrl := "u", updatedAt := 0 }
      none [{ id := 4, projectId := 1 }]).canvas = none ∧
    ∃ fp, getFullProject 7
        (some (ProjectWithRelations.mk
          { id := 1, sandboxUrl := "u", updatedAt := 0 }
          none [{ id := 4, projectId := 1 }])) 99 = some fp ∧
      fp.frames = [] ∧
      fp.userCanvas = toCanvas (createDefaultUserCanvas 7 99) := by
  refine ⟨rfl, ?_⟩
  obtain ⟨fp, heq, _, _, hnone, _⟩ :=
    (getFullProject_defaults 7 99
      (ProjectWithRelations.mk { id := 1, sandboxUrl := "u", updatedAt := 0 }
        none [{ id := 4, projectId := 1 }])).2
  exact ⟨fp, heq, (hnone rfl).1, (hnone rfl).2⟩

/-- C4: project creation is all-or-nothing — with no failing insert the
transaction commits exactly one new row in each table (project,
owner-role join, canvas, user-canvas, frame, conversation, plus a PENDING
creation request when creation data is supplied), all tied to the new
project id directly or through the new canvas; and when any insert on the
execution path fails, the transaction throws and the visible state is the
original database. -/
theorem createProject_atomic (db : Db) (p : ProjectRow) (uid : Nat)
    (cd : Option String) (cid fid vid : Nat) (fails : InsertStep → Bool) :
    ((∀ s, fails s = false) →
      createProjectTx db p uid cd cid fid vid fails = Except.ok
          { projects := db.projects ++ [p],
            userProjects := db.userProjects ++
              [{ userId := uid, projectId := p.id,
                 role := ProjectRole.OWNER }],
            canvases := db.canvases ++ [createDefaultCanvas cid p.id],
            userCanvases := db.userCanvases ++
              [createDefaultUserCanvas uid (createDefaultCanvas cid p.id).id],
            frames := db.frames ++
              [createDefaultFrame fid (createDefaultCanvas cid p.id).id
                p.sandboxUrl],
            conversations := db.conversations ++
              [createDefaultConversation vid p.id],
            projectCreateRequests := db.projectCreateRequests ++
              (match cd with
               | none => []
               | some d =>
                 [{ projectId := p.id,
                    status := ProjectCreateRequestStatus.PENDING,
                    creationData := d }]) } ∧
      createProjectVisible db p uid cd cid fid vid fails =
          { projects := db.projects ++ [p],
            userProjects := db.userProjects ++
              [{ userId := uid, projectId := p.id,
                 role := ProjectRole.OWNER }],
            canvases := db.canvases ++ [createDefaultCanvas cid p.id],
            userCanvases := db.userCanvases ++
              [createDefaultUserCanvas uid (createDefaultCanvas cid p.id).id],
            frames := db.frames ++
              [createDefaultFrame fid (createDefaultCanvas cid p.id).id
                p.sandboxUrl],
            conversations := db.conversations ++
              [createDefaultConversation vid p.id],
            projectCreateRequests := db.projectCreateRequests ++
              (match cd with
               | none => []
               | some d =>
                 [{ projectId := p.id,
                    status := ProjectCreateRequestStatus.PENDING,
                    creationData := d }]) }) ∧
    (∀ s, fails s = true → (s = InsertStep.createRequestStep → cd ≠ none) →
      (∃ e, createProjectTx db p uid cd cid fid vid fails =
        Except.error e) ∧
      createProjectVisible db p uid cd cid fid vid fails = db) := by
  constructor
  · intro h
    have htx : createProjectTx db p uid cd cid fid vid fails =
        Except.ok
          { projects := db.projects ++ [p],
            userProjects := db.userProjects ++
              [{ userId := uid, projectId := p.id,
                 role := ProjectRole.OWNER }],
            canvases := db.canvases ++ [createDefaultCanvas cid p.id],
            userCanvases := db.userCanvases ++
              [createDefaultUserCanvas uid (createDefaultCanvas cid p.id).id],
            frames := db.frames ++
              [createDefaultFrame fid (createDefaultCanvas cid p.id).id
                p.sandboxUrl],
            conversations := db.conversations ++
              [createDefaultConversation vid p.id],
            projectCreateRequests := db.projectCreateRequests ++
              (match cd with
               | none => []
               | some d =>
                 [{ projectId := p.id,
                    status := ProjectCreateRequestStatus.PENDING,
                    creationData := d }]) } := by
      rcases cd with _ | d <;> simp [createProjectTx, h]
    exact ⟨htx, by simp [createProjectVisible, htx]⟩
  · intro s hs hcr
    have htx : ∃ e, createProjectTx db p uid cd cid fid vid fails =
        Except.error e := by
      by_cases h1 : fails InsertStep.projectStep = true
      · exact ⟨"Failed to create project in database", by simp [createProjectTx, h1]⟩
      by_cases h2 : fails InsertStep.userProjectStep = true
      · exact ⟨"userProjects insert failed", by simp [createProjectTx, h1, h2]⟩
      by_cases h3 : fails InsertStep.canvasStep = true
      · exact ⟨"canvases insert failed", by simp [createProjectTx, h1, h2, h3]⟩
      by_cases h4 : fails InsertStep.userCanvasStep = true
      · exact ⟨"userCanvases insert failed", by simp [createProjectTx, h1, h2, h3, h4]⟩
      by_cases h5 : fails InsertStep.frameStep = true
      · exact ⟨"frames insert failed", by simp [createProjectTx, h1, h2, h3, h4, h5]⟩
      by_cases h6 : fails InsertStep.conversationStep = true
      · exact ⟨"conversations insert failed", by simp [createProjectTx, h1, h2, h3, h4, h5, h6]⟩
      have hs7 : s = InsertStep.createRequestStep := by
        cases s <;> simp_all
      subst hs7
      rcases cd with _ | d
      · exact absurd rfl (hcr rfl)
      · exact ⟨"projectCreateRequests insert failed", by simp [createProjectTx, h1, h2, h3, h4, h5, h6, hs]⟩
    obtain ⟨e, he⟩ := htx
    exact ⟨⟨e, he⟩, by simp [createProjectVisible, he]⟩

/-- Witness for `createProject_atomic`: on an empty database, an
all-succeeding run commits exactly one row per table, and a run whose
project insert fails leaves the database empty. -/
theorem createProject_atomic_witness :
    createProjectTx
        { projects := [], userProjects := [], canvases := [],
          userCanvases := [], frames := [], conversations := [],
          projectCreateRequests := [] }
        { id := 1, sandboxUrl := "u", updatedAt := 0 } 2 (some "ctx") 3 4 5
        (fun _ => false) =
      Except.ok
        { projects := [{ id := 1, sandboxUrl := "u", updatedAt := 0 }],
          userProjects := [{ userId := 2, projectId := 1,
                             role := ProjectRole.OWNER }],
          canvases := [{ id := 3, projectId := 1 }],
          userCanvases := [{ userId := 2, canvasId := 3 }],
          frames := [{ id := 4, canvasId := 3, url := "u" }],
          conversations := [{ id := 5, projectId := 1 }],
          projectCreateRequests :=
            [{ projectId := 1, status := ProjectCreateRequestStatus.PENDING,
               creationData := "ctx" }] } ∧
    createProjectVisible
        { projects := [], userProjects := [], canvases := [],
          userCanvases := [], frames := [], conversations := [],
          projectCreateRequests := [] }
        { id := 1, sandboxUrl := "u", updatedAt := 0 } 2 (some "ctx") 3 4 5
        (fun _ => true) =
      { projects := [], userProjects := [], canvases := [],
        userCanvases := [], frames := [], conversations := [],
        projectCreateRequests := [] } :=
  ⟨((createProject_atomic
      { projects := [], userProjects := [], canvases := [],
        userCanvases := [], frames := [], conversations := [],
        projectCreateRequests := [] }
      { id := 1, sandboxUrl := "u", updatedAt := 0 } 2 (some "ctx") 3 4 5
      (fun _ => false)).1 (fun _ => rfl)).1,
   ((createProject_atomic
      { projects := [], userProjects := [], canvases := [],
        userCanvases := [], frames := [], conversations := [],
        projectCreateRequests := [] }
      { id := 1, sandboxUrl := "u", updatedAt := 0 } 2 (some "ctx") 3 4 5
      (fun _ => true)).2 InsertStep.projectStep rfl
      (fun _ h => Option.noConfusion h)).2⟩
